import Mathlib

/-!
Shallow embedding of the CRM service (crm/models.py, crm/schema.py,
crm/filters.py) and proofs about its order-aggregation, validation,
filtering and mutation behaviour.

Conventions of the embedding:
* Django `Decimal` values are rationals (`ℚ`) — exact decimal arithmetic.
* Timestamps are `Nat` instants; `auto_now_add=True` fields are written
  with the clock value passed to `save`, ignoring any caller-supplied
  value, which is Django's documented behaviour for such fields.
* The relational store is a `Store` record: rows of each table plus the
  many-to-many association table `orderLinks` and the autoincrement
  counters.
* A possible store fault at a write (store unavailable, constraint race)
  is injected through an `Option String` argument: `some m` means the
  write raises an exception with text `m`, `none` means it succeeds.
  The `try/except` wrappers of `schema.py` are embedded as the explicit
  conversion of that fault into a structured failure result.
-/

/-- Row of the `Customer` table (crm/models.py, class Customer). -/
structure Customer where
  id : Nat
  name : String
  email : String
  phone : Option String
deriving DecidableEq

/-- Row of the `Product` table (crm/models.py, class Product).
`stock` is an `Int` so that the source's `stock < 0` check is kept. -/
structure Product where
  id : Nat
  name : String
  price : ℚ
  stock : Int
deriving DecidableEq

/-- Row of the `Order` table (crm/models.py, class Order); `pk = none`
is an in-memory instance that has not been saved yet. -/
structure Order where
  pk : Option Nat
  customer_id : Nat
  total_amount : ℚ
  order_date : Nat
deriving DecidableEq

/-- The relational store: the three tables, the order–product
many-to-many table, and the autoincrement counters. -/
structure Store where
  customers : List Customer
  products : List Product
  orders : List Order
  orderLinks : List (Nat × Nat)
  nextCustomerId : Nat
  nextProductId : Nat
  nextOrderId : Nat
deriving DecidableEq

/-- Mutation inputs (schema.py, class CustomerInput). -/
structure CustomerInput where
  name : String
  email : String
  phone : Option String
deriving DecidableEq

/-- Mutation inputs (schema.py, class ProductInput). -/
structure ProductInput where
  name : String
  price : ℚ
  stock : Option Int
deriving DecidableEq

/-- Mutation inputs (schema.py, class OrderInput). -/
structure OrderInput where
  customer_id : Nat
  product_ids : List Nat
  order_date : Option Nat
deriving DecidableEq

/-- schema.py, class CustomerMutationResult. -/
structure CustomerMutationResult where
  customer : Option Customer
  message : String
  success : Bool
deriving DecidableEq

/-- schema.py, class BulkCustomerMutationResult. -/
structure BulkCustomerMutationResult where
  customers : List Customer
  errors : List String
  success : Bool
deriving DecidableEq

/-- schema.py, class ProductMutationResult. -/
structure ProductMutationResult where
  product : Option Product
  message : String
  success : Bool
deriving DecidableEq

/-- schema.py, class OrderMutationResult. -/
structure OrderMutationResult where
  order : Option Order
  message : String
  success : Bool
deriving DecidableEq

/-- The ASCII apostrophe, used in the phone-format error message. -/
def apos : String := String.singleton (Char.ofNat 39)

/-- The phone-format rejection message from schema.py lines 109 and 16. -/
def phoneFormatMessage : String :=
  "Phone must be in format " ++ apos ++ "+1234567890" ++ apos ++
    " or " ++ apos ++ "123-456-7890" ++ apos

/-- Python truthiness of an optional string (`if input.phone:`):
`None` and the empty string are falsy. -/
def phoneTruthy : Option String → Bool
  | none => false
  | some p => !(p = "")

/-- The alternative `\+\d{1,3}\d{9,10}` of the phone regex: a plus sign
followed by 10 to 13 digits (1–3 country digits then 9–10 digits). -/
def phonePattern1 (p : String) : Bool :=
  match p.toList with
  | '+' :: ds => ds.all Char.isDigit && decide (10 ≤ ds.length) && decide (ds.length ≤ 13)
  | _ => false

/-- The alternative `\d{3}-\d{3}-\d{4}` of the phone regex. -/
def phonePattern2 (p : String) : Bool :=
  match p.toList.splitOn '-' with
  | [a, b, c] =>
      a.all Char.isDigit && b.all Char.isDigit && c.all Char.isDigit &&
        decide (a.length = 3) && decide (b.length = 3) && decide (c.length = 4)
  | _ => false

/-- `re.match(r'^(\+\d{1,3}\d{9,10}|\d{3}-\d{3}-\d{4})$', p)` as a
boolean (schema.py line 105). -/
def phoneRegexMatch (p : String) : Bool :=
  phonePattern1 p || phonePattern2 p

/-- `Customer.objects.create(...)`: append the row, bump the counter. -/
def Customer.create (s : Store) (name email : String) (phone : Option String) :
    Store × Customer :=
  let c : Customer := ⟨s.nextCustomerId, name, email, phone⟩
  ({ s with customers := s.customers ++ [c],
            nextCustomerId := s.nextCustomerId + 1 }, c)

/-- schema.py, CreateCustomer.mutate.  `fault` injects an exception at
the `Customer.objects.create` write; the surrounding `try/except` turns
it into the structured failure result. -/
def CreateCustomer.mutate (fault : Option String) (s : Store)
    (input : CustomerInput) : Store × CustomerMutationResult :=
  if s.customers.any (fun c => decide (c.email = input.email)) then
    (s, ⟨none, "Email already exists", false⟩)
  else if phoneTruthy input.phone && !phoneRegexMatch (input.phone.getD "") then
    (s, ⟨none, phoneFormatMessage, false⟩)
  else
    match fault with
    | some m => (s, ⟨none, "Error creating customer: " ++ m, false⟩)
    | none =>
        let (s2, c) := Customer.create s input.name input.email input.phone
        (s2, ⟨some c, "Customer created successfully", true⟩)

/-- The loop body of schema.py, BulkCreateCustomers.mutate (lines
146–169): each item is checked and written independently; a per-item
exception (injected by `itemFault i`) is caught by the inner
`try/except` and appended as an error string; the loop continues. -/
def BulkCreateCustomers.loop (itemFault : Nat → Option String) (s : Store)
    (items : List CustomerInput) (i : Nat) (created : List Customer)
    (errors : List String) : Store × List Customer × List String :=
  match items with
  | [] => (s, created, errors)
  | item :: rest =>
    if s.customers.any (fun c => decide (c.email = item.email)) then
      BulkCreateCustomers.loop itemFault s rest (i + 1) created
        (errors ++ ["Customer " ++ toString (i + 1) ++ ": Email already exists"])
    else if phoneTruthy item.phone && !phoneRegexMatch (item.phone.getD "") then
      BulkCreateCustomers.loop itemFault s rest (i + 1) created
        (errors ++ ["Customer " ++ toString (i + 1) ++ ": Invalid phone format"])
    else
      match itemFault i with
      | some m =>
          BulkCreateCustomers.loop itemFault s rest (i + 1) created
            (errors ++ ["Customer " ++ toString (i + 1) ++ ": " ++ m])
      | none =>
          let (s2, c) := Customer.create s item.name item.email item.phone
          BulkCreateCustomers.loop itemFault s2 rest (i + 1) (created ++ [c]) errors

/-- schema.py, BulkCreateCustomers.mutate.  `commitFault` injects a
failure of the wrapping `transaction.atomic()` block itself (caught by
the outer `try/except`, which rolls everything back); `itemFault`
injects per-item write exceptions (caught by the inner handler). -/
def BulkCreateCustomers.mutate (commitFault : Option String)
    (itemFault : Nat → Option String) (s : Store)
    (input : List CustomerInput) : Store × BulkCustomerMutationResult :=
  match commitFault with
  | some m => (s, ⟨[], ["Transaction failed: " ++ m], false⟩)
  | none =>
      let (s2, created, errors) := BulkCreateCustomers.loop itemFault s input 0 [] []
      (s2, ⟨created, errors, decide (0 < created.length)⟩)

/-- schema.py, CreateProduct.mutate. -/
def CreateProduct.mutate (fault : Option String) (s : Store)
    (input : ProductInput) : Store × ProductMutationResult :=
  if input.price ≤ 0 then
    (s, ⟨none, "Price must be positive", false⟩)
  else
    let stock := input.stock.getD 0
    if stock < 0 then
      (s, ⟨none, "Stock cannot be negative", false⟩)
    else
      match fault with
      | some m => (s, ⟨none, "Error creating product: " ++ m, false⟩)
      | none =>
          let p : Product := ⟨s.nextProductId, input.name, input.price, stock⟩
          ({ s with products := s.products ++ [p],
                    nextProductId := s.nextProductId + 1 },
           ⟨some p, "Product created successfully", true⟩)

/-- `sum(product.price for product in ...)` over a product list, in
exact rational (decimal) arithmetic. -/
def sumPrices (l : List Product) : ℚ :=
  l.foldl (fun acc p => acc + p.price) 0

/-- `self.products.all()`: the products currently associated with the
order through the many-to-many table. -/
def Order.associatedProducts (s : Store) (o : Order) : List Product :=
  s.products.filter (fun p =>
    match o.pk with
    | none => false
    | some k => decide ((k, p.id) ∈ s.orderLinks))

/-- models.py, Order.calculate_total: sum of the prices of the
currently associated products. -/
def Order.calculate_total (s : Store) (o : Order) : ℚ :=
  sumPrices (Order.associatedProducts s o)

/-- models.py, Order.save: a new order (no pk) is written with
`total_amount = Decimal('0.00')`; the insert also stamps the
`auto_now_add=True` column `order_date` with the current instant,
ignoring any caller-assigned value (Django semantics of the field
declared at models.py line 52).  Saving an existing order updates its
row in place. -/
def Order.save (now : Nat) (s : Store) (o : Order) : Store × Order :=
  match o.pk with
  | none =>
      let o2 : Order := ⟨some s.nextOrderId, o.customer_id, 0, now⟩
      ({ s with orders := s.orders ++ [o2],
                nextOrderId := s.nextOrderId + 1 }, o2)
  | some k =>
      ({ s with orders := s.orders.map (fun r => if r.pk = some k then o else r) }, o)

/-- models.py, Order.update_total: recompute the total from the
current associations and save. -/
def Order.update_total (now : Nat) (s : Store) (o : Order) : Store × Order :=
  let o2 : Order := { o with total_amount := Order.calculate_total s o }
  Order.save now s o2

/-- `order.products.set(products)`: replace the order's rows in the
many-to-many table by one link per given product. -/
def Order.setProducts (s : Store) (o : Order) (ps : List Product) : Store :=
  match o.pk with
  | none => s
  | some k =>
      { s with orderLinks :=
          s.orderLinks.filter (fun l => decide (l.1 ≠ k)) ++
            ps.map (fun p => (k, p.id)) }

/-- schema.py, CreateOrder.mutate.  `fault` injects an exception inside
the `transaction.atomic()` block (at the order write); the outer
`try/except` converts it into a structured failure and the transaction
rolls back, leaving the store unchanged. -/
def CreateOrder.mutate (fault : Option String) (s : Store)
    (input : OrderInput) (now : Nat) : Store × OrderMutationResult :=
  match s.customers.find? (fun c => decide (c.id = input.customer_id)) with
  | none => (s, ⟨none, "Invalid customer ID", false⟩)
  | some customer =>
    if input.product_ids.isEmpty then
      (s, ⟨none, "At least one product is required", false⟩)
    else
      let products := s.products.filter (fun p => decide (p.id ∈ input.product_ids))
      if products.length ≠ input.product_ids.length then
        (s, ⟨none, "One or more invalid product IDs", false⟩)
      else
        match fault with
        | some m => (s, ⟨none, "Error creating order: " ++ m, false⟩)
        | none =>
          let total_amount := sumPrices products
          let o0 : Order := ⟨none, customer.id, total_amount, input.order_date.getD now⟩
          let (s1, o1) := Order.save now s o0
          let s2 := Order.setProducts s1 o1 products
          let (s3, o2) := Order.update_total now s2 o1
          (s3, ⟨some o2, "Order created successfully", true⟩)

/-- ASCII lower-casing of one character. -/
def lowerChar (c : Char) : Char :=
  if 65 ≤ c.toNat && c.toNat ≤ 90 then Char.ofNat (c.toNat + 32) else c

/-- Case-insensitive substring test, the embedding of the SQL
`ILIKE '%value%'` produced by an `icontains` lookup. -/
def strContainsCI (hay needle : String) : Bool :=
  let h := hay.toList.map lowerChar
  let n := needle.toList.map lowerChar
  (List.range (h.length + 1)).any (fun i => decide ((h.drop i).take n.length = n))

/-- The declared filter fields of filters.py, ProductFilter. -/
structure ProductFilterParams where
  name : Option String
  price : Option ℚ
  price__gte : Option ℚ
  price__lte : Option ℚ
  stock : Option Int
  stock__gte : Option Int
  stock__lte : Option Int
  low_stock : Option Bool
deriving DecidableEq

/-- filters.py, ProductFilter.filter_low_stock: `if value:` restrict to
`stock < 10`, otherwise return the queryset unchanged. -/
def ProductFilter.filter_low_stock (queryset : List Product) (value : Bool) :
    List Product :=
  if value then queryset.filter (fun p => decide (p.stock < 10)) else queryset

/-- Conjunctive application of every declared ProductFilter field except
`low_stock`; absent keys impose no constraint (django_filters skips
filters whose value is None). -/
def ProductFilter.applyBase (ps : ProductFilterParams) (qs : List Product) :
    List Product :=
  let q1 := match ps.name with
    | some v => qs.filter (fun p => strContainsCI p.name v)
    | none => qs
  let q2 := match ps.price with
    | some v => q1.filter (fun p => decide (p.price = v))
    | none => q1
  let q3 := match ps.price__gte with
    | some v => q2.filter (fun p => decide (v ≤ p.price))
    | none => q2
  let q4 := match ps.price__lte with
    | some v => q3.filter (fun p => decide (p.price ≤ v))
    | none => q3
  let q5 := match ps.stock with
    | some v => q4.filter (fun p => decide (p.stock = v))
    | none => q4
  let q6 := match ps.stock__gte with
    | some v => q5.filter (fun p => decide (v ≤ p.stock))
    | none => q5
  let q7 := match ps.stock__lte with
    | some v => q6.filter (fun p => decide (p.stock ≤ v))
    | none => q6
  q7

/-- Full ProductFilter application: the base filters, then
`filter_low_stock` when a `low_stock` value was supplied. -/
def ProductFilter.apply (ps : ProductFilterParams) (qs : List Product) :
    List Product :=
  match ps.low_stock with
  | some v => ProductFilter.filter_low_stock (ProductFilter.applyBase ps qs) v
  | none => ProductFilter.applyBase ps qs

/-- filters.py line 72: the `product_name` CharFilter on
`products__name` with `icontains`.  The SQL join yields one result row
per (order, matching associated product) pair, and the declaration has
no `.distinct()`, so an order appears once per qualifying product. -/
def OrderFilter.product_name (s : Store) (qs : List Order) (value : String) :
    List Order :=
  qs.flatMap (fun o =>
    ((Order.associatedProducts s o).filter
        (fun p => strContainsCI p.name value)).map (fun _ => o))

/-- Number of occurrences of an order in a result list. -/
def countOcc (o : Order) (l : List Order) : Nat :=
  (l.filter (fun x => decide (x = o))).length

/-- The many-to-many rows written for the new order by
`order.products.set(products)` during a successful `CreateOrder`. -/
def createdLinks (s : Store) (ids : List Nat) : List (Nat × Nat) :=
  s.orderLinks.filter (fun l => decide (l.1 ≠ s.nextOrderId)) ++
    (s.products.filter (fun p => decide (p.id ∈ ids))).map
      (fun p => (s.nextOrderId, p.id))

/-- The total recomputed by `order.update_total()` after association. -/
def createdTotal (s : Store) (ids : List Nat) : ℚ :=
  sumPrices (s.products.filter
    (fun p => decide ((s.nextOrderId, p.id) ∈ createdLinks s ids)))

/-- The order row as it stands after a successful `CreateOrder`. -/
def createdOrder (s : Store) (cid : Nat) (ids : List Nat) (now : Nat) : Order :=
  ⟨some s.nextOrderId, cid, createdTotal s ids, now⟩

/-- The store after a successful `CreateOrder` run against `s`. -/
def createOrderFinalStore (s : Store) (cid : Nat) (ids : List Nat) (now : Nat) :
    Store :=
  { s with
    orders := (s.orders ++ [(⟨some s.nextOrderId, cid, 0, now⟩ : Order)]).map
        (fun r => if r.pk = some s.nextOrderId then createdOrder s cid ids now else r),
    orderLinks := createdLinks s ids,
    nextOrderId := s.nextOrderId + 1 }

/-- Fixture: one customer. -/
def baseCustomer : Customer := ⟨1, "Ana", "ana at example com", none⟩

/-- Fixture: a product with price 10.00 and stock 5. -/
def widget : Product := ⟨1, "widget", 10, 5⟩

/-- Fixture: a product with price 6.00 and stock 12. -/
def gadget : Product := ⟨2, "gadget", 6, 12⟩

/-- Fixture store: one customer, two products, no orders. -/
def exStore : Store := ⟨[baseCustomer], [widget, gadget], [], [], 2, 3, 1⟩

/-- Fixture: a product named apple. -/
def appleProduct : Product := ⟨1, "apple", 10, 5⟩

/-- Fixture: a second product whose name also contains "app". -/
def sauceProduct : Product := ⟨2, "applesauce", 5, 3⟩

/-- Fixture: a saved order associated with both apple products. -/
def exOrder : Order := ⟨some 1, 1, 15, 0⟩

/-- Fixture store holding `exOrder` with its two associations. -/
def exOrderStore : Store :=
  ⟨[baseCustomer], [appleProduct, sauceProduct], [exOrder], [(1, 1), (1, 2)], 2, 3, 2⟩

/-- Fixture: an empty store. -/
def emptyStore : Store := ⟨[], [], [], [], 1, 1, 1⟩

/-- Fixture: a customer input with an invalid phone. -/
def badPhoneInput : CustomerInput := ⟨"Bob", "bob at example com", some "12345"⟩

/-- Fixture: an unsaved order instance with a nonzero caller total. -/
def freshOrder : Order := ⟨none, 1, 7, 3⟩

/-- Fixture: an order request for both products of `exStore`. -/
def exOrderInput : OrderInput := ⟨1, [1, 2], none⟩

/-- Fixture: an order request naming the nonexistent product 99. -/
def missingInput : OrderInput := ⟨1, [1, 99], none⟩

/-- Fixture: an order request naming valid product 1 twice. -/
def dupInput : OrderInput := ⟨1, [1, 1], none⟩

/-- Fixture: an order request with an explicit order date 5. -/
def datedInput : OrderInput := ⟨1, [1], some 5⟩

/-- C6: with any other filter values fixed, `low_stock = true` restricts
the base result to products with stock < 10, while `low_stock = false`
and an absent `low_stock` both return exactly the base result. -/
theorem c6_low_stock_semantics (ps : ProductFilterParams) (qs : List Product) :
    ProductFilter.apply { ps with low_stock := some true } qs
        = (ProductFilter.apply { ps with low_stock := none } qs).filter
            (fun p => decide (p.stock < 10))
      ∧ ProductFilter.apply { ps with low_stock := some false } qs
        = ProductFilter.apply { ps with low_stock := none } qs := by
  obtain ⟨n, p1, p2, p3, s1, s2, s3, ls⟩ := ps
  exact ⟨rfl, rfl⟩

/-- C9: when the store write raises (store fault or constraint race),
each public mutation converts the exception into a structured failure
result — success is false, the transaction is rolled back (the store is
returned unchanged) and no exception escapes to the caller. -/
theorem c9_mutations_catch_faults (m : String) (s : Store)
    (cinp : CustomerInput) (pinp : ProductInput) (oinp : OrderInput) (now : Nat)
    (itemFault : Nat → Option String) (items : List CustomerInput) :
    ((CreateCustomer.mutate (some m) s cinp).1 = s
      ∧ (CreateCustomer.mutate (some m) s cinp).2.success = false)
    ∧ ((CreateProduct.mutate (some m) s pinp).1 = s
      ∧ (CreateProduct.mutate (some m) s pinp).2.success = false)
    ∧ ((CreateOrder.mutate (some m) s oinp now).1 = s
      ∧ (CreateOrder.mutate (some m) s oinp now).2.success = false)
    ∧ BulkCreateCustomers.mutate (some m) itemFault s items
        = (s, ⟨[], ["Transaction failed: " ++ m], false⟩) := by
  refine ⟨⟨?_, ?_⟩, ⟨?_, ?_⟩, ⟨?_, ?_⟩, rfl⟩
  · unfold CreateCustomer.mutate; dsimp only; split_ifs <;> rfl
  · unfold CreateCustomer.mutate; dsimp only; split_ifs <;> rfl
  · unfold CreateProduct.mutate; dsimp only; split_ifs <;> rfl
  · unfold CreateProduct.mutate; dsimp only; split_ifs <;> rfl
  · unfold CreateOrder.mutate
    cases s.customers.find? (fun c => decide (c.id = oinp.customer_id)) with
    | none => rfl
    | some c => dsimp only; split_ifs <;> rfl
  · unfold CreateOrder.mutate
    cases s.customers.find? (fun c => decide (c.id = oinp.customer_id)) with
    | none => rfl
    | some c => dsimp only; split_ifs <;> rfl

/-- C10: saving a new order (no primary key) writes `total_amount =
0.00` whatever total the caller put on the instance, and the total
stored by `update_total` is exactly `calculate_total`, the
post-association recomputation. -/
theorem c10_save_zeroes_new_order (now : Nat) (s : Store) (o : Order) (t : ℚ)
    (h : o.pk = none) :
    Order.save now s { o with total_amount := t } = Order.save now s o
    ∧ (Order.save now s o).2.total_amount = 0
    ∧ ∀ now2 s2 o2, (Order.update_total now2 s2 o2).2.total_amount
        = Order.calculate_total s2 o2 := by
  obtain ⟨pk, cid, ta, od⟩ := o
  subst h
  refine ⟨rfl, rfl, ?_⟩
  intro now2 s2 o2
  obtain ⟨pk2, cid2, ta2, od2⟩ := o2
  cases pk2 with
  | none =>
      show (0 : ℚ) = Order.calculate_total s2 ⟨none, cid2, ta2, od2⟩
      simp [Order.calculate_total, Order.associatedProducts, sumPrices,
        List.filter_false]
  | some k => rfl

/-- Every iteration of the bulk-create loop accounts for exactly one
item: it appends either one created customer or one error string. -/
theorem bulk_loop_counts (itemFault : Nat → Option String) :
    ∀ (items : List CustomerInput) (s : Store) (i : Nat)
      (created : List Customer) (errors : List String),
      (BulkCreateCustomers.loop itemFault s items i created errors).2.1.length
        + (BulkCreateCustomers.loop itemFault s items i created errors).2.2.length
        = created.length + errors.length + items.length := by
  intro items
  induction items with
  | nil => intro s i created errors; simp [BulkCreateCustomers.loop]
  | cons item rest ih =>
    intro s i created errors
    unfold BulkCreateCustomers.loop
    dsimp only
    split_ifs with h1 h2
    · rw [ih]
      simp only [List.length_append, List.length_cons, List.length_nil]
      omega
    · rw [ih]
      simp only [List.length_append, List.length_cons, List.length_nil]
      omega
    · cases hf : itemFault i with
      | some m =>
          rw [ih]
          simp only [List.length_append, List.length_cons, List.length_nil]
          omega
      | none =>
          simp only [Customer.create]
          rw [ih]
          simp only [List.length_append, List.length_cons, List.length_nil]
          omega

/-- C7: a bulk create of N items returns lists of created customers and
error strings whose lengths sum to N — every item is either created or
reported, the loop never stops early — and the success flag is exactly
"at least one customer was created". -/
theorem c7_bulk_create_counts (itemFault : Nat → Option String) (s : Store)
    (items : List CustomerInput) :
    ((BulkCreateCustomers.mutate none itemFault s items).2.customers.length
      + (BulkCreateCustomers.mutate none itemFault s items).2.errors.length
      = items.length)
    ∧ ((BulkCreateCustomers.mutate none itemFault s items).2.success
        = decide (0 < (BulkCreateCustomers.mutate none itemFault s items).2.customers.length)) := by
  have hc := bulk_loop_counts itemFault items s 0 [] []
  rcases hres : BulkCreateCustomers.loop itemFault s items 0 [] [] with ⟨s2, created, errors⟩
  rw [hres] at hc
  simp only [BulkCreateCustomers.mutate, hres]
  simp only [List.length_nil] at hc
  constructor
  · simpa using hc
  · trivial

/-- C8: with the email not already taken, createCustomer rejects with
the phone-format message exactly when the phone is present, non-empty,
and matches neither accepted pattern. -/
theorem c8_phone_format_rule (s : Store) (inp : CustomerInput)
    (h : s.customers.any (fun c => decide (c.email = inp.email)) = false) :
    ((CreateCustomer.mutate none s inp).2.message = phoneFormatMessage
        ∧ (CreateCustomer.mutate none s inp).2.success = false)
      ↔ (phoneTruthy inp.phone = true
        ∧ phoneRegexMatch (inp.phone.getD "") = false) := by
  unfold CreateCustomer.mutate
  rw [h]
  simp only [Bool.false_eq_true, if_false]
  by_cases hb : (phoneTruthy inp.phone && !phoneRegexMatch (inp.phone.getD "")) = true
  · rw [if_pos hb]
    rw [Bool.and_eq_true, Bool.not_eq_true'] at hb
    exact ⟨fun _ => hb, fun _ => ⟨rfl, rfl⟩⟩
  · rw [if_neg hb]
    simp only [Customer.create]
    constructor
    · rintro ⟨-, h2⟩
      simp at h2
    · rintro ⟨h1, h2⟩
      exact absurd (by rw [h1, h2]; rfl) hb

/-- Closed witness for `c8_phone_format_rule`: an empty store and a
request whose phone "12345" matches neither pattern. -/
theorem c8_witness :
    (emptyStore.customers.any (fun c => decide (c.email = badPhoneInput.email)) = false)
    ∧ (((CreateCustomer.mutate none emptyStore badPhoneInput).2.message = phoneFormatMessage
          ∧ (CreateCustomer.mutate none emptyStore badPhoneInput).2.success = false)
        ↔ (phoneTruthy badPhoneInput.phone = true
          ∧ phoneRegexMatch (badPhoneInput.phone.getD "") = false)) :=
  ⟨rfl, c8_phone_format_rule emptyStore badPhoneInput rfl⟩

/-- Occurrence counts add over list concatenation. -/
theorem countOcc_append (o : Order) (l1 l2 : List Order) :
    countOcc o (l1 ++ l2) = countOcc o l1 + countOcc o l2 := by
  simp [countOcc, List.filter_append]

/-- Occurrence count of a cons cell. -/
theorem countOcc_cons (o x : Order) (l : List Order) :
    countOcc o (x :: l) = (if x = o then 1 else 0) + countOcc o l := by
  by_cases h : x = o <;>
    simp [countOcc, List.filter_cons, h, Nat.add_comm]

/-- Occurrence count in a constant-valued map. -/
theorem countOcc_map_const {β : Type} (o x : Order) (l : List β) :
    countOcc o (l.map (fun _ => x)) = if x = o then l.length else 0 := by
  induction l with
  | nil => simp [countOcc]
  | cons b rest ih =>
      rw [List.map_cons, countOcc_cons, ih]
      by_cases h : x = o <;> simp [h, Nat.add_comm]

/-- C5 (amended): the `product_name` filter returns each order of the
base queryset once per associated product whose name contains the
value — the join is not de-duplicated. -/
theorem c5_product_name_multiplicity (s : Store) (qs : List Order) (v : String)
    (o : Order) :
    countOcc o (OrderFilter.product_name s qs v)
      = countOcc o qs
        * ((Order.associatedProducts s o).filter (fun p => strContainsCI p.name v)).length := by
  induction qs with
  | nil => simp [OrderFilter.product_name, countOcc]
  | cons x rest ih =>
      unfold OrderFilter.product_name
      unfold OrderFilter.product_name at ih
      rw [List.flatMap_cons, countOcc_append, countOcc_map_const, ih, countOcc_cons]
      by_cases h : x = o
      · subst h
        simp only [eq_self_iff_true, if_true]
        ring
      · simp [h]

/-- C5 counterexample: an order associated with two products whose
names both contain "app" occurs twice, not once, in the filtered
result. -/
theorem c5_counterexample :
    countOcc exOrder (OrderFilter.product_name exOrderStore [exOrder] "app") = 2
    ∧ ¬ countOcc exOrder (OrderFilter.product_name exOrderStore [exOrder] "app") = 1 := by
  decide

/-- Closed witness for `c10_save_zeroes_new_order` at a concrete
unsaved order carrying total 7. -/
theorem c10_witness :
    freshOrder.pk = none
    ∧ (Order.save 4 emptyStore { freshOrder with total_amount := 9 }
          = Order.save 4 emptyStore freshOrder
      ∧ (Order.save 4 emptyStore freshOrder).2.total_amount = 0
      ∧ ∀ now2 s2 o2, (Order.update_total now2 s2 o2).2.total_amount
          = Order.calculate_total s2 o2) :=
  ⟨rfl, c10_save_zeroes_new_order 4 emptyStore freshOrder 9 rfl⟩


/-- If some requested id resolves to no product, the resolved product
count falls strictly below the requested list length (product ids are
unique in the store). -/
theorem resolved_lt_of_missing (P : List Product) (ids : List Nat)
    (hnd : (P.map Product.id).Nodup) (i : Nat) (hi : i ∈ ids)
    (hmiss : ∀ p ∈ P, p.id ≠ i) :
    (P.filter (fun p => decide (p.id ∈ ids))).length < ids.length := by
  classical
  have hsub : List.Sublist ((P.filter (fun p => decide (p.id ∈ ids))).map Product.id)
      (P.map Product.id) :=
    (List.filter_sublist P).map Product.id
  have hlnd : ((P.filter (fun p => decide (p.id ∈ ids))).map Product.id).Nodup :=
    List.Nodup.sublist hsub hnd
  have hsubf : ((P.filter (fun p => decide (p.id ∈ ids))).map Product.id).toFinset
      ⊆ ids.toFinset.erase i := by
    intro a ha
    rw [List.mem_toFinset] at ha
    rcases List.mem_map.1 ha with ⟨p, hp, rfl⟩
    rcases List.mem_filter.1 hp with ⟨hpP, hpid⟩
    exact Finset.mem_erase.2 ⟨hmiss p hpP, List.mem_toFinset.2 (by simpa using hpid)⟩
  have hcard := Finset.card_le_card hsubf
  rw [List.toFinset_card_of_nodup hlnd,
    Finset.card_erase_of_mem (List.mem_toFinset.2 hi)] at hcard
  have h2 : ids.toFinset.card ≤ ids.length := List.toFinset_card_le ids
  have hpos : 0 < ids.toFinset.card := Finset.card_pos.2 ⟨i, List.mem_toFinset.2 hi⟩
  have h3 : ((P.filter (fun p => decide (p.id ∈ ids))).map Product.id).length
      = (P.filter (fun p => decide (p.id ∈ ids))).length := List.length_map _ _
  omega

/-- When the requested ids are distinct and all resolve, the resolved
product count equals the requested list length. -/
theorem resolved_eq_of_all_valid (P : List Product) (ids : List Nat)
    (hndP : (P.map Product.id).Nodup) (hnds : ids.Nodup)
    (hall : ∀ i ∈ ids, ∃ p ∈ P, p.id = i) :
    (P.filter (fun p => decide (p.id ∈ ids))).length = ids.length := by
  classical
  have hsub : List.Sublist ((P.filter (fun p => decide (p.id ∈ ids))).map Product.id)
      (P.map Product.id) :=
    (List.filter_sublist P).map Product.id
  have hlnd : ((P.filter (fun p => decide (p.id ∈ ids))).map Product.id).Nodup :=
    List.Nodup.sublist hsub hndP
  have hperm : List.Perm ((P.filter (fun p => decide (p.id ∈ ids))).map Product.id) ids := by
    apply (List.perm_ext_iff_of_nodup hlnd hnds).2
    intro a
    constructor
    · intro ha
      rcases List.mem_map.1 ha with ⟨p, hp, rfl⟩
      exact (by simpa using (List.mem_filter.1 hp).2 : p.id ∈ ids)
    · intro ha
      rcases hall a ha with ⟨p, hpP, hpa⟩
      exact List.mem_map.2 ⟨p, List.mem_filter.2 ⟨hpP, by simpa [hpa] using ha⟩, hpa⟩
  have hlen := hperm.length_eq
  rw [List.length_map] at hlen
  exact hlen

/-- The explicit result of a successful CreateOrder run: customer
found, non-empty id list, all ids resolved. -/
theorem createOrder_success_eq (s : Store) (inp : OrderInput) (now : Nat)
    (c : Customer)
    (hc : s.customers.find? (fun x => decide (x.id = inp.customer_id)) = some c)
    (hne : inp.product_ids.isEmpty = false)
    (hlen : (s.products.filter (fun p => decide (p.id ∈ inp.product_ids))).length
        = inp.product_ids.length) :
    CreateOrder.mutate none s inp now
      = (createOrderFinalStore s c.id inp.product_ids now,
          ⟨some (createdOrder s c.id inp.product_ids now),
            "Order created successfully", true⟩) := by
  unfold CreateOrder.mutate
  rw [hc]
  dsimp only
  rw [hne]
  simp only [Bool.false_eq_true, if_false]
  rw [if_neg (fun hcon => hcon hlen)]
  rfl

/-- A CreateOrder run reporting success implies: no store fault, a
resolved customer, a non-empty id list, and a full product resolution. -/
theorem createOrder_success_inv (fault : Option String) (s : Store)
    (inp : OrderInput) (now : Nat)
    (hs : (CreateOrder.mutate fault s inp now).2.success = true) :
    fault = none
    ∧ inp.product_ids.isEmpty = false
    ∧ (s.products.filter (fun p => decide (p.id ∈ inp.product_ids))).length
        = inp.product_ids.length
    ∧ ∃ c, s.customers.find? (fun x => decide (x.id = inp.customer_id)) = some c := by
  unfold CreateOrder.mutate at hs
  rcases hcq : s.customers.find? (fun x => decide (x.id = inp.customer_id)) with _ | c
  · rw [hcq] at hs
    simp at hs
  · rw [hcq] at hs
    dsimp only at hs
    cases hne : inp.product_ids.isEmpty
    · rw [hne] at hs
      simp only [Bool.false_eq_true, if_false] at hs
      by_cases hl : (s.products.filter (fun p => decide (p.id ∈ inp.product_ids))).length
          = inp.product_ids.length
      · rw [if_neg (fun hcon => hcon hl)] at hs
        cases fault with
        | some m => simp at hs
        | none => exact ⟨rfl, rfl, hl, c, hcq⟩
      · rw [if_pos hl] at hs
        simp at hs
    · rw [hne] at hs
      simp at hs

/-- C1: every successful CreateOrder leaves in the store an order row —
the one returned — whose total_amount is exactly the sum of the prices
of the products associated with it, in exact (rational) arithmetic. -/
theorem c1_total_is_sum_of_associated (fault : Option String) (s : Store)
    (inp : OrderInput) (now : Nat)
    (hs : (CreateOrder.mutate fault s inp now).2.success = true) :
    ∃ o, (CreateOrder.mutate fault s inp now).2.order = some o
      ∧ o ∈ (CreateOrder.mutate fault s inp now).1.orders
      ∧ o.total_amount
          = sumPrices (Order.associatedProducts (CreateOrder.mutate fault s inp now).1 o) := by
  obtain ⟨hf, hne, hlen, c, hcq⟩ := createOrder_success_inv fault s inp now hs
  subst hf
  rw [createOrder_success_eq s inp now c hcq hne hlen]
  refine ⟨createdOrder s c.id inp.product_ids now, rfl, ?_, ?_⟩
  · unfold createOrderFinalStore
    dsimp only
    refine List.mem_map.2 ⟨⟨some s.nextOrderId, c.id, 0, now⟩, ?_, ?_⟩
    · exact List.mem_append_right _ (List.mem_singleton_self _)
    · dsimp only
      rw [if_pos rfl]
  · rfl

/-- Closed witness for `c1_total_is_sum_of_associated`: ordering both
products of the fixture store succeeds. -/
theorem c1_witness :
    (CreateOrder.mutate none exStore exOrderInput 50).2.success = true
    ∧ ∃ o, (CreateOrder.mutate none exStore exOrderInput 50).2.order = some o
      ∧ o ∈ (CreateOrder.mutate none exStore exOrderInput 50).1.orders
      ∧ o.total_amount
          = sumPrices (Order.associatedProducts
              (CreateOrder.mutate none exStore exOrderInput 50).1 o) :=
  ⟨by decide, c1_total_is_sum_of_associated none exStore exOrderInput 50 (by decide)⟩

/-- C2: a CreateOrder request containing an id that resolves to no
product fails (success = false) and leaves the store untouched — no
order row, association or total change is persisted. -/
theorem c2_invalid_product_rolls_back (fault : Option String) (s : Store)
    (inp : OrderInput) (now : Nat)
    (hnd : (s.products.map Product.id).Nodup)
    (hmiss : ∃ i ∈ inp.product_ids, ∀ p ∈ s.products, p.id ≠ i) :
    (CreateOrder.mutate fault s inp now).1 = s
    ∧ (CreateOrder.mutate fault s inp now).2.success = false := by
  obtain ⟨i, hi, hm⟩ := hmiss
  unfold CreateOrder.mutate
  cases s.customers.find? (fun x => decide (x.id = inp.customer_id)) with
  | none => exact ⟨rfl, rfl⟩
  | some c =>
    dsimp only
    cases hne : inp.product_ids.isEmpty
    · simp only [Bool.false_eq_true, if_false]
      rw [if_pos (Nat.ne_of_lt (resolved_lt_of_missing s.products inp.product_ids hnd i hi hm))]
      exact ⟨rfl, rfl⟩
    · exact ⟨rfl, rfl⟩

/-- Closed witness for `c2_invalid_product_rolls_back`: requesting the
nonexistent product 99 fails and changes nothing. -/
theorem c2_witness :
    ((exStore.products.map Product.id).Nodup
      ∧ ∃ i ∈ missingInput.product_ids, ∀ p ∈ exStore.products, p.id ≠ i)
    ∧ ((CreateOrder.mutate none exStore missingInput 0).1 = exStore
      ∧ (CreateOrder.mutate none exStore missingInput 0).2.success = false) :=
  ⟨⟨by decide, by decide⟩,
    c2_invalid_product_rolls_back none exStore missingInput 0 (by decide) (by decide)⟩

/-- C3 counterexample: the request [1, 1] refers only to the valid
product 1, yet CreateOrder rejects it — the code compares the resolved
count (1) against the length of the id list (2), not against the
cardinality of the id set. -/
theorem c3_counterexample :
    (([1, 1] : List Nat).all
        (fun i => exStore.products.any (fun p => decide (p.id = i))) = true)
    ∧ (CreateOrder.mutate none exStore dupInput 0).2.success = false := by
  decide

/-- C3 (amended): after customer resolution and the non-empty check,
CreateOrder succeeds iff the resolved product count equals the LENGTH
of the product_ids list; hence requests whose ids are distinct and all
valid are created, while duplicated valid ids are rejected. -/
theorem c3_resolution_cardinality_rule (s : Store) (inp : OrderInput) (now : Nat)
    (hc : (s.customers.find? (fun x => decide (x.id = inp.customer_id))).isSome = true)
    (hne : inp.product_ids.isEmpty = false) :
    ((CreateOrder.mutate none s inp now).2.success = true
      ↔ (s.products.filter (fun p => decide (p.id ∈ inp.product_ids))).length
          = inp.product_ids.length)
    ∧ ((s.products.map Product.id).Nodup → inp.product_ids.Nodup →
        (∀ i ∈ inp.product_ids, ∃ p ∈ s.products, p.id = i) →
        (CreateOrder.mutate none s inp now).2.success = true) := by
  obtain ⟨c, hcq⟩ := Option.isSome_iff_exists.1 hc
  constructor
  · constructor
    · intro hs
      exact (createOrder_success_inv none s inp now hs).2.2.1
    · intro hlen
      rw [createOrder_success_eq s inp now c hcq hne hlen]
  · intro h1 h2 h3
    rw [createOrder_success_eq s inp now c hcq hne
      (resolved_eq_of_all_valid s.products inp.product_ids h1 h2 h3)]

/-- Closed witness for `c3_resolution_cardinality_rule` on the fixture
store and the distinct valid request [1, 2]. -/
theorem c3_witness :
    ((exStore.customers.find?
        (fun x => decide (x.id = exOrderInput.customer_id))).isSome = true
      ∧ exOrderInput.product_ids.isEmpty = false)
    ∧ (((CreateOrder.mutate none exStore exOrderInput 0).2.success = true
        ↔ (exStore.products.filter
              (fun p => decide (p.id ∈ exOrderInput.product_ids))).length
            = exOrderInput.product_ids.length)
      ∧ ((exStore.products.map Product.id).Nodup → exOrderInput.product_ids.Nodup →
          (∀ i ∈ exOrderInput.product_ids, ∃ p ∈ exStore.products, p.id = i) →
          (CreateOrder.mutate none exStore exOrderInput 0).2.success = true)) :=
  ⟨⟨by decide, by decide⟩,
    c3_resolution_cardinality_rule exStore exOrderInput 0 (by decide) (by decide)⟩

/-- C4: the supplied orderDate 5 is accepted by a successful
CreateOrder, but the persisted row's order_date is the creation instant
100 — the model's auto_now_add on order_date overrides the explicitly
supplied value, contradicting the documented default-only behaviour. -/
theorem c4_supplied_order_date_not_persisted :
    (CreateOrder.mutate none exStore datedInput 100).2.success = true
    ∧ (CreateOrder.mutate none exStore datedInput 100).1.orders.map Order.order_date = [100]
    ∧ datedInput.order_date = some 5
    ∧ (5 : Nat) ≠ 100 := by
  decide
